import Mathlib

/-!
Verification of the two scrapers of mysqld_exporter present in the sources:
`ScrapeInnodbTrx` (src/collector/info_schema_innodb_trx.go) and
`ScrapeAuroraHostStatus` (src/unnamed/part_000, scraping
`information_schema.replica_host_status`).

The embedding models the `database/sql` and prometheus client surfaces the
scrapers use:

* a query issued under a cancellation context either fails outright
  (`QueryOutcome.failure`, the `err != nil` branch of `QueryContext`) or
  yields an open cursor (`QueryOutcome.success`) holding the sequence of
  `Scan` outcomes that `Next`/`Scan` will produce, in order, plus the value
  `Rows.Err()` would report once `Next` returns false (`iterErr`) — a
  context cancelled mid-iteration makes `Next` return false early and sets
  `iterErr` to the cancellation error;
* each `Scrape` call is embedded as a function from that input to the trace
  of externally visible events (cursor open, metric sends on the channel,
  cursor close) together with the returned `error` value (`none` = nil);
* `float64` values that only ever carry exact decoded numbers (small
  integer counts, decimal column values) are modelled as rationals; the
  `uint64` columns of the innodb_trx scraper are modelled as `Nat`.
-/

/-- Errors surfaced by the database layer. `ctxCanceled` marks the error a
cancelled or expired context produces; every other driver/decode error is
`other`. -/
inductive Err where
  | ctxCanceled : Err
  | other : String → Err
deriving DecidableEq, Repr

/-- The sequence of row outcomes an open cursor will deliver: `scans` lists,
in order, the result of `Scan` for each row for which `Next` returns true;
`iterErr` is what `Rows.Err()` would report after `Next` has returned false
(set to the context's error when cancellation truncated the iteration).
Neither scraper ever calls `Rows.Err()`, so `iterErr` is read by no embedded
function. -/
structure Rows (Row : Type) where
  scans : List (Except Err Row)
  iterErr : Option Err

/-- Outcome of `db.QueryContext(ctx, query)`: either the call itself fails
(no cursor is opened) or it returns an open cursor. -/
inductive QueryOutcome (Row : Type) where
  | failure : Err → QueryOutcome Row
  | success : Rows Row → QueryOutcome Row

/-- Metric kind tag (`prometheus.GaugeValue` / `prometheus.CounterValue`). -/
inductive ValueType where
  | gauge : ValueType
  | counter : ValueType
deriving DecidableEq, Repr

/-- A metric descriptor (`prometheus.Desc`): fully-qualified name, help
text, ordered variable label names. -/
structure Desc where
  fqName : String
  help : String
  variableLabels : List String
deriving DecidableEq, Repr

/-- `prometheus.BuildFQName namespace subsystem name`: joins the non-empty
components with underscores. -/
def BuildFQName (ns sub name : String) : String :=
  if name = "" then ""
  else if ns ≠ "" ∧ sub ≠ "" then ns ++ "_" ++ sub ++ "_" ++ name
  else if ns ≠ "" then ns ++ "_" ++ name
  else if sub ≠ "" then sub ++ "_" ++ name
  else name

/-- `prometheus.NewDesc` restricted to the fields the scrapers use
(no constant labels are passed: both call sites pass `nil`). -/
def NewDesc (fqName help : String) (variableLabels : List String) : Desc :=
  { fqName := fqName, help := help, variableLabels := variableLabels }

/-- One metric point as built by `prometheus.MustNewConstMetric`:
descriptor, kind, value, and the ordered label values. -/
structure Metric where
  desc : Desc
  valueType : ValueType
  value : ℚ
  labelValues : List String
deriving DecidableEq, Repr

/-- `prometheus.MustNewConstMetric` at the shapes used here (the label
arity always matches the descriptor at both call sites). -/
def MustNewConstMetric (desc : Desc) (vt : ValueType) (value : ℚ)
    (labelValues : List String) : Metric :=
  { desc := desc, valueType := vt, value := value, labelValues := labelValues }

/-- Modelled from the spec: the `namespace` constant of the `collector`
package is declared in a file not present under src/; the spec says each
point carries "a stable fully-qualified metric name (namespace + subsystem
+ short name)". Its concrete value affects no claim below. -/
def namespaceConst : String := "mysql"

/-- Modelled from the spec: the `informationSchema` subsystem constant of
the `collector` package is declared in a file not present under src/. The
aurora scraper hard-codes the name "info_schema.aurora_stats" and the spec
names the other scraper "info_schema.innodb_trx", fixing the value
"info_schema". -/
def informationSchema : String := "info_schema"

/-- Externally visible events of one `Scrape` call, in order: opening the
result cursor, sending a metric on the output channel, closing the cursor. -/
inductive Event where
  | openCursor : Event
  | closeCursor : Event
  | emit : Metric → Event
deriving DecidableEq, Repr

/-- The metrics sent on the channel during a trace, in order. -/
def emittedOf (tr : List Event) : List Metric :=
  tr.filterMap fun e =>
    match e with
    | Event.emit m => some m
    | _ => none

/-- Whether the cursor is open after the trace has run (false initially;
`openCursor` sets it, `closeCursor` clears it). -/
def cursorOpenAfter (tr : List Event) : Bool :=
  tr.foldl
    (fun b e =>
      match e with
      | Event.openCursor => true
      | Event.closeCursor => false
      | Event.emit _ => b)
    false

/-! ## ScrapeInnodbTrx (src/collector/info_schema_innodb_trx.go) -/

/-- The descriptor `infoSchemaTrxCountDesc`. -/
def infoSchemaTrxCountDesc : Desc :=
  NewDesc (BuildFQName namespaceConst informationSchema "trx_count_per_sec")
    "Number of transactions performed over (period) seconds."
    ["period"]

/-- The struct `ScrapeInnodbTrx` (empty: the scraper holds no state). -/
structure ScrapeInnodbTrx where

/-- `ScrapeInnodbTrx.Name`. -/
def ScrapeInnodbTrx.Name (_s : ScrapeInnodbTrx) : String :=
  informationSchema ++ ".innodb_trx"

/-- `ScrapeInnodbTrx.Help`. -/
def ScrapeInnodbTrx.Help (_s : ScrapeInnodbTrx) : String :=
  "Collect metrics from information_schema.innodb_trx"

/-- `ScrapeInnodbTrx.Version` (the float64 literal 5.6, as a rational). -/
def ScrapeInnodbTrx.Version (_s : ScrapeInnodbTrx) : ℚ :=
  5.6

/-- One decoded row of the innodb_trx query: the three `uint64` columns
scanned into `trx5SecCount`, `trx30SecCount`, `trx60SecCount`. -/
structure TrxRow where
  trx5SecCount : Nat
  trx30SecCount : Nat
  trx60SecCount : Nat
deriving DecidableEq, Repr

/-- The three channel sends the loop body performs for one decoded row:
gauge points under `infoSchemaTrxCountDesc` with label values "5", "30",
"60", values `float64(trx5SecCount)` etc. -/
def trxRowPoints (r : TrxRow) : List Metric :=
  [ MustNewConstMetric infoSchemaTrxCountDesc ValueType.gauge
      (r.trx5SecCount : ℚ) ["5"],
    MustNewConstMetric infoSchemaTrxCountDesc ValueType.gauge
      (r.trx30SecCount : ℚ) ["30"],
    MustNewConstMetric infoSchemaTrxCountDesc ValueType.gauge
      (r.trx60SecCount : ℚ) ["60"] ]

/-- The `for informationSchemaInnodbTrxRows.Next()` loop: each `Scan`
failure returns that error at once (no further rows); each success sends
the row's three points and continues. Returns the emit events of the loop
body and the function's return value (`none` = fall through to
`return nil`). -/
def ScrapeInnodbTrx.scrapeLoop : List (Except Err TrxRow) → List Event × Option Err
  | [] => ([], none)
  | Except.error e :: _ => ([], some e)
  | Except.ok r :: rest =>
      let res := ScrapeInnodbTrx.scrapeLoop rest
      ((trxRowPoints r).map Event.emit ++ res.1, res.2)

/-- `ScrapeInnodbTrx.Scrape`: issue the query; on failure return the error
(no cursor ever opened); otherwise iterate under `defer rows.Close()`, so
the close event precedes every return after the open. `rows.Err()` is
never consulted. -/
def ScrapeInnodbTrx.Scrape (_s : ScrapeInnodbTrx) (db : QueryOutcome TrxRow) :
    List Event × Option Err :=
  match db with
  | QueryOutcome.failure e => ([], some e)
  | QueryOutcome.success rows =>
      let res := ScrapeInnodbTrx.scrapeLoop rows.scans
      (Event.openCursor :: res.1 ++ [Event.closeCursor], res.2)

/-! ## ScrapeAuroraHostStatus (src/unnamed/part_000) -/

/-- The descriptor `infoSchemaAuroraCPUUsageDesc`. -/
def infoSchemaAuroraCPUUsageDesc : Desc :=
  NewDesc (BuildFQName namespaceConst informationSchema "aurora_status_cpu_usage")
    "The cpu usage of aurora instance."
    ["server_id"]

/-- The descriptor `infoSchemaAuroraReplicaLagDesc`. -/
def infoSchemaAuroraReplicaLagDesc : Desc :=
  NewDesc (BuildFQName namespaceConst informationSchema "aurora_status_replica_lag_ms")
    "The mili-seconds of repica lag."
    ["server_id"]

/-- The struct `ScrapeAuroraHostStatus` (empty: the scraper holds no
state). -/
structure ScrapeAuroraHostStatus where

/-- `ScrapeAuroraHostStatus.Name`. -/
def ScrapeAuroraHostStatus.Name (_s : ScrapeAuroraHostStatus) : String :=
  "info_schema.aurora_stats"

/-- `ScrapeAuroraHostStatus.Help`. -/
def ScrapeAuroraHostStatus.Help (_s : ScrapeAuroraHostStatus) : String :=
  "Only works on aurora instance"

/-- `ScrapeAuroraHostStatus.Version` (the float64 literal 5.6, as a
rational). -/
def ScrapeAuroraHostStatus.Version (_s : ScrapeAuroraHostStatus) : ℚ :=
  5.6

/-- One decoded row of the replica_host_status query: `server_id` (string),
`cpu` and `replica_lag` (float64, modelled as rationals). -/
structure AuroraRow where
  auroraServerID : String
  cpu : ℚ
  replicaLag : ℚ
deriving DecidableEq, Repr

/-- The two channel sends the loop body performs for one decoded row: a
cpu-usage gauge and a replica-lag gauge, each labelled by the row's server
id. -/
def auroraRowPoints (r : AuroraRow) : List Metric :=
  [ MustNewConstMetric infoSchemaAuroraCPUUsageDesc ValueType.gauge
      r.cpu [r.auroraServerID],
    MustNewConstMetric infoSchemaAuroraReplicaLagDesc ValueType.gauge
      r.replicaLag [r.auroraServerID] ]

/-- The `for informationSchemaReplicaHostStatusRows.Next()` loop, in the
same shape as the innodb one: a `Scan` failure returns that error at once;
a success sends the row's two points and continues. -/
def ScrapeAuroraHostStatus.scrapeLoop :
    List (Except Err AuroraRow) → List Event × Option Err
  | [] => ([], none)
  | Except.error e :: _ => ([], some e)
  | Except.ok r :: rest =>
      let res := ScrapeAuroraHostStatus.scrapeLoop rest
      ((auroraRowPoints r).map Event.emit ++ res.1, res.2)

/-- `ScrapeAuroraHostStatus.Scrape`: issue the query; on failure return the
error (no cursor ever opened); otherwise iterate under
`defer rows.Close()`. `rows.Err()` is never consulted. -/
def ScrapeAuroraHostStatus.Scrape (_s : ScrapeAuroraHostStatus)
    (db : QueryOutcome AuroraRow) : List Event × Option Err :=
  match db with
  | QueryOutcome.failure e => ([], some e)
  | QueryOutcome.success rows =>
      let res := ScrapeAuroraHostStatus.scrapeLoop rows.scans
      (Event.openCursor :: res.1 ++ [Event.closeCursor], res.2)

/-- A run in which the supplied cancellation context was cancelled or
expired: either the query call itself failed with the context's error, or
the iteration was cut short and `Rows.Err()` would report the context's
error. -/
def cancelledRun {Row : Type} (db : QueryOutcome Row) : Prop :=
  db = QueryOutcome.failure Err.ctxCanceled ∨
    ∃ rows, db = QueryOutcome.success rows ∧ rows.iterErr = some Err.ctxCanceled

/-! ## Helper lemmas -/

theorem emittedOf_nil : emittedOf [] = [] := rfl

theorem emittedOf_openCursor_cons (tr : List Event) :
    emittedOf (Event.openCursor :: tr) = emittedOf tr := by
  simp [emittedOf]

theorem emittedOf_append (t₁ t₂ : List Event) :
    emittedOf (t₁ ++ t₂) = emittedOf t₁ ++ emittedOf t₂ := by
  simp [emittedOf]

theorem emittedOf_closeCursor : emittedOf [Event.closeCursor] = [] := rfl

theorem emittedOf_map_emit (ms : List Metric) :
    emittedOf (ms.map Event.emit) = ms := by
  induction ms with
  | nil => rfl
  | cons m rest ih => simp [emittedOf] at ih ⊢; exact ih

theorem innodb_scrapeLoop_map_ok (rows : List TrxRow) :
    ScrapeInnodbTrx.scrapeLoop (rows.map Except.ok) =
      ((rows.flatMap trxRowPoints).map Event.emit, none) := by
  induction rows with
  | nil => rfl
  | cons r rest ih =>
      simp [ScrapeInnodbTrx.scrapeLoop, ih, List.flatMap_cons]

theorem innodb_scrapeLoop_err (pre : List TrxRow) (e : Err)
    (rest : List (Except Err TrxRow)) :
    ScrapeInnodbTrx.scrapeLoop (pre.map Except.ok ++ Except.error e :: rest) =
      ((pre.flatMap trxRowPoints).map Event.emit, some e) := by
  induction pre with
  | nil => rfl
  | cons r rs ih =>
      simp [ScrapeInnodbTrx.scrapeLoop, ih, List.flatMap_cons]

theorem aurora_scrapeLoop_map_ok (rows : List AuroraRow) :
    ScrapeAuroraHostStatus.scrapeLoop (rows.map Except.ok) =
      ((rows.flatMap auroraRowPoints).map Event.emit, none) := by
  induction rows with
  | nil => rfl
  | cons r rest ih =>
      simp [ScrapeAuroraHostStatus.scrapeLoop, ih, List.flatMap_cons]

theorem aurora_scrapeLoop_err (pre : List AuroraRow) (e : Err)
    (rest : List (Except Err AuroraRow)) :
    ScrapeAuroraHostStatus.scrapeLoop (pre.map Except.ok ++ Except.error e :: rest) =
      ((pre.flatMap auroraRowPoints).map Event.emit, some e) := by
  induction pre with
  | nil => rfl
  | cons r rs ih =>
      simp [ScrapeAuroraHostStatus.scrapeLoop, ih, List.flatMap_cons]

theorem innodb_Scrape_map_ok (s : ScrapeInnodbTrx) (rows : List TrxRow)
    (iterE : Option Err) :
    s.Scrape (QueryOutcome.success ⟨rows.map Except.ok, iterE⟩) =
      (Event.openCursor :: (rows.flatMap trxRowPoints).map Event.emit
          ++ [Event.closeCursor],
        none) := by
  simp [ScrapeInnodbTrx.Scrape, innodb_scrapeLoop_map_ok]

theorem aurora_Scrape_map_ok (s : ScrapeAuroraHostStatus) (rows : List AuroraRow)
    (iterE : Option Err) :
    s.Scrape (QueryOutcome.success ⟨rows.map Except.ok, iterE⟩) =
      (Event.openCursor :: (rows.flatMap auroraRowPoints).map Event.emit
          ++ [Event.closeCursor],
        none) := by
  simp [ScrapeAuroraHostStatus.Scrape, aurora_scrapeLoop_map_ok]

theorem emittedOf_wrap (ms : List Metric) :
    emittedOf (Event.openCursor :: ms.map Event.emit ++ [Event.closeCursor]) = ms := by
  rw [emittedOf_append, emittedOf_openCursor_cons, emittedOf_map_emit,
    emittedOf_closeCursor, List.append_nil]

theorem trxRowPoints_length (r : TrxRow) : (trxRowPoints r).length = 3 := rfl

theorem auroraRowPoints_length (r : AuroraRow) : (auroraRowPoints r).length = 2 := rfl

theorem flatMap_trxRowPoints_length (rows : List TrxRow) :
    (rows.flatMap trxRowPoints).length = rows.length * 3 := by
  induction rows with
  | nil => rfl
  | cons r rest ih =>
      simp [List.flatMap_cons, ih, trxRowPoints_length, Nat.succ_mul, Nat.add_comm]

theorem flatMap_auroraRowPoints_length (rows : List AuroraRow) :
    (rows.flatMap auroraRowPoints).length = rows.length * 2 := by
  induction rows with
  | nil => rfl
  | cons r rest ih =>
      simp [List.flatMap_cons, ih, auroraRowPoints_length, Nat.succ_mul, Nat.add_comm]

theorem cursorOpenAfter_append_close (tr : List Event) :
    cursorOpenAfter (tr ++ [Event.closeCursor]) = false := by
  simp [cursorOpenAfter, List.foldl_append]

theorem innodb_scrapeLoop_emitted_nonneg (l : List (Except Err TrxRow))
    (m : Metric) (hm : m ∈ emittedOf (ScrapeInnodbTrx.scrapeLoop l).1) :
    0 ≤ m.value := by
  induction l with
  | nil => simp [ScrapeInnodbTrx.scrapeLoop, emittedOf] at hm
  | cons x rest ih =>
      cases x with
      | error e => simp [ScrapeInnodbTrx.scrapeLoop, emittedOf] at hm
      | ok r =>
          rw [ScrapeInnodbTrx.scrapeLoop] at hm
          rw [emittedOf_append, emittedOf_map_emit] at hm
          rcases List.mem_append.mp hm with h | h
          · simp only [trxRowPoints, List.mem_cons, List.not_mem_nil, or_false] at h
            rcases h with h | h | h <;> (rw [h]; exact Nat.cast_nonneg _)
          · exact ih h

/-! ## Claims -/

/-- C1: for every query result set that Scrape iterates to completion
without any decode error (all `Scan` outcomes succeed), Scrape pushes
exactly R×D metric points onto the output channel and returns a nil
outcome, with D = 3 descriptors per row for `ScrapeInnodbTrx` and D = 2
for `ScrapeAuroraHostStatus`. -/
theorem claim_C1 :
    (∀ (s : ScrapeInnodbTrx) (rows : List TrxRow) (iterE : Option Err),
      (emittedOf (s.Scrape (QueryOutcome.success ⟨rows.map Except.ok, iterE⟩)).1).length
          = rows.length * 3
        ∧ (s.Scrape (QueryOutcome.success ⟨rows.map Except.ok, iterE⟩)).2 = none)
    ∧ (∀ (s : ScrapeAuroraHostStatus) (rows : List AuroraRow) (iterE : Option Err),
      (emittedOf (s.Scrape (QueryOutcome.success ⟨rows.map Except.ok, iterE⟩)).1).length
          = rows.length * 2
        ∧ (s.Scrape (QueryOutcome.success ⟨rows.map Except.ok, iterE⟩)).2 = none) := by
  constructor
  · intro s rows iterE
    rw [innodb_Scrape_map_ok]
    exact ⟨by rw [emittedOf_wrap, flatMap_trxRowPoints_length], rfl⟩
  · intro s rows iterE
    rw [aurora_Scrape_map_ok]
    exact ⟨by rw [emittedOf_wrap, flatMap_auroraRowPoints_length], rfl⟩

/-- C2: for every row stream in which row K is the first row whose `Scan`
fails, Scrape pushes exactly the metric points produced from rows 1..K-1,
in order, pushes no point derived from row K or any later row, and returns
a non-nil error outcome (the `Scan` error itself). -/
theorem claim_C2 :
    (∀ (s : ScrapeInnodbTrx) (pre : List TrxRow) (e : Err)
        (rest : List (Except Err TrxRow)) (iterE : Option Err),
      emittedOf (s.Scrape (QueryOutcome.success
            ⟨pre.map Except.ok ++ Except.error e :: rest, iterE⟩)).1
          = pre.flatMap trxRowPoints
        ∧ (s.Scrape (QueryOutcome.success
            ⟨pre.map Except.ok ++ Except.error e :: rest, iterE⟩)).2 = some e)
    ∧ (∀ (s : ScrapeAuroraHostStatus) (pre : List AuroraRow) (e : Err)
        (rest : List (Except Err AuroraRow)) (iterE : Option Err),
      emittedOf (s.Scrape (QueryOutcome.success
            ⟨pre.map Except.ok ++ Except.error e :: rest, iterE⟩)).1
          = pre.flatMap auroraRowPoints
        ∧ (s.Scrape (QueryOutcome.success
            ⟨pre.map Except.ok ++ Except.error e :: rest, iterE⟩)).2 = some e) := by
  constructor
  · intro s pre e rest iterE
    show emittedOf (Event.openCursor ::
        (ScrapeInnodbTrx.scrapeLoop (pre.map Except.ok ++ Except.error e :: rest)).1
        ++ [Event.closeCursor]) = _ ∧
      (ScrapeInnodbTrx.scrapeLoop (pre.map Except.ok ++ Except.error e :: rest)).2 = _
    rw [innodb_scrapeLoop_err]
    exact ⟨emittedOf_wrap _, rfl⟩
  · intro s pre e rest iterE
    show emittedOf (Event.openCursor ::
        (ScrapeAuroraHostStatus.scrapeLoop (pre.map Except.ok ++ Except.error e :: rest)).1
        ++ [Event.closeCursor]) = _ ∧
      (ScrapeAuroraHostStatus.scrapeLoop (pre.map Except.ok ++ Except.error e :: rest)).2 = _
    rw [aurora_scrapeLoop_err]
    exact ⟨emittedOf_wrap _, rfl⟩

/-- C3: for every input on which the query call itself fails, Scrape's
whole trace is empty — zero metric points are pushed and the cursor is
never opened (so none is left open) — and the query's error is returned
as the outcome. -/
theorem claim_C3 :
    (∀ (s : ScrapeInnodbTrx) (e : Err),
      s.Scrape (QueryOutcome.failure e) = ([], some e))
    ∧ (∀ (s : ScrapeAuroraHostStatus) (e : Err),
      s.Scrape (QueryOutcome.failure e) = ([], some e)) :=
  ⟨fun _ _ => rfl, fun _ _ => rfl⟩

/-- C4 counterexample: a run cancelled during row iteration (`Next`
returned false early, `Rows.Err()` would report the context error) on
which `ScrapeInnodbTrx.Scrape` nevertheless returns nil with a partial
emission of three points — the claim's "cancellation ... never yields a
nil outcome with a partial emission" fails, because neither scraper ever
checks `Rows.Err()`. -/
theorem claim_C4_counterexample :
    cancelledRun (QueryOutcome.success
        (⟨[Except.ok ⟨5, 2, 0⟩], some Err.ctxCanceled⟩ : Rows TrxRow))
    ∧ (ScrapeInnodbTrx.Scrape ⟨⟩ (QueryOutcome.success
        ⟨[Except.ok ⟨5, 2, 0⟩], some Err.ctxCanceled⟩)).2 = none
    ∧ (emittedOf (ScrapeInnodbTrx.Scrape ⟨⟩ (QueryOutcome.success
        ⟨[Except.ok ⟨5, 2, 0⟩], some Err.ctxCanceled⟩)).1).length = 3 :=
  ⟨Or.inr ⟨_, rfl, rfl⟩, rfl, by decide⟩

/-- C4 (amended): a context that expires before the query returns makes
the query call fail, and Scrape then pushes zero points and returns that
error; but a cancellation that manifests only as early termination of row
iteration is not detected — `Rows.Err()` is never consulted — so Scrape
returns nil with exactly the points of the rows delivered before the
cut-off. -/
theorem claim_C4 :
    (∀ (s : ScrapeInnodbTrx),
      s.Scrape (QueryOutcome.failure Err.ctxCanceled)
        = ([], some Err.ctxCanceled))
    ∧ (∀ (s : ScrapeAuroraHostStatus),
      s.Scrape (QueryOutcome.failure Err.ctxCanceled)
        = ([], some Err.ctxCanceled))
    ∧ (∀ (s : ScrapeInnodbTrx) (rows : List TrxRow),
      emittedOf (s.Scrape (QueryOutcome.success
            ⟨rows.map Except.ok, some Err.ctxCanceled⟩)).1
          = rows.flatMap trxRowPoints
        ∧ (s.Scrape (QueryOutcome.success
            ⟨rows.map Except.ok, some Err.ctxCanceled⟩)).2 = none)
    ∧ (∀ (s : ScrapeAuroraHostStatus) (rows : List AuroraRow),
      emittedOf (s.Scrape (QueryOutcome.success
            ⟨rows.map Except.ok, some Err.ctxCanceled⟩)).1
          = rows.flatMap auroraRowPoints
        ∧ (s.Scrape (QueryOutcome.success
            ⟨rows.map Except.ok, some Err.ctxCanceled⟩)).2 = none) := by
  refine ⟨fun s => rfl, fun s => rfl, fun s rows => ?_, fun s rows => ?_⟩
  · rw [innodb_Scrape_map_ok]
    exact ⟨emittedOf_wrap _, rfl⟩
  · rw [aurora_Scrape_map_ok]
    exact ⟨emittedOf_wrap _, rfl⟩

/-- C5: on every terminating run of either Scrape the cursor's open flag
is false in the final state, and whenever the cursor was opened it was
also closed before the return. -/
theorem claim_C5 :
    (∀ (s : ScrapeInnodbTrx) (db : QueryOutcome TrxRow),
      cursorOpenAfter (s.Scrape db).1 = false
        ∧ (Event.openCursor ∈ (s.Scrape db).1 →
            Event.closeCursor ∈ (s.Scrape db).1))
    ∧ (∀ (s : ScrapeAuroraHostStatus) (db : QueryOutcome AuroraRow),
      cursorOpenAfter (s.Scrape db).1 = false
        ∧ (Event.openCursor ∈ (s.Scrape db).1 →
            Event.closeCursor ∈ (s.Scrape db).1)) := by
  constructor
  · intro s db
    cases db with
    | failure e => exact ⟨rfl, by intro h; cases h⟩
    | success rows =>
        constructor
        · show cursorOpenAfter ((Event.openCursor ::
            (ScrapeInnodbTrx.scrapeLoop rows.scans).1) ++ [Event.closeCursor]) = false
          exact cursorOpenAfter_append_close _
        · intro _
          show Event.closeCursor ∈ (Event.openCursor ::
            (ScrapeInnodbTrx.scrapeLoop rows.scans).1) ++ [Event.closeCursor]
          exact List.mem_append_right _ (List.mem_singleton.mpr rfl)
  · intro s db
    cases db with
    | failure e => exact ⟨rfl, by intro h; cases h⟩
    | success rows =>
        constructor
        · show cursorOpenAfter ((Event.openCursor ::
            (ScrapeAuroraHostStatus.scrapeLoop rows.scans).1) ++ [Event.closeCursor]) = false
          exact cursorOpenAfter_append_close _
        · intro _
          show Event.closeCursor ∈ (Event.openCursor ::
            (ScrapeAuroraHostStatus.scrapeLoop rows.scans).1) ++ [Event.closeCursor]
          exact List.mem_append_right _ (List.mem_singleton.mpr rfl)

/-- C5 witness: the cursor postconditions instantiated on a concrete
successful one-row run of `ScrapeInnodbTrx.Scrape`, discharging the
membership hypothesis there. -/
theorem claim_C5_witness :
    cursorOpenAfter ((ScrapeInnodbTrx.Scrape ⟨⟩ (QueryOutcome.success
        ⟨[Except.ok ⟨5, 2, 0⟩], none⟩)).1) = false
    ∧ Event.closeCursor ∈ (ScrapeInnodbTrx.Scrape ⟨⟩ (QueryOutcome.success
        ⟨[Except.ok ⟨5, 2, 0⟩], none⟩)).1 :=
  ⟨(claim_C5.1 ⟨⟩ _).1, (claim_C5.1 ⟨⟩ _).2 (by decide)⟩

/-- C6: on the single row (5,2,0) `ScrapeInnodbTrx.Scrape` emits exactly
three gauge points under the one descriptor `infoSchemaTrxCountDesc`, in
order: value 5 with label "5", value 2 with label "30", value 0 with label
"60"; and in general the emitted sequence is the row sequence flat-mapped
through the per-row points in descriptor declaration order — rows in query
order, points within a row in declaration order. -/
theorem claim_C6 :
    (ScrapeInnodbTrx.Scrape ⟨⟩ (QueryOutcome.success
        ⟨[Except.ok ⟨5, 2, 0⟩], none⟩)
      = (Event.openCursor ::
          [Event.emit (MustNewConstMetric infoSchemaTrxCountDesc
              ValueType.gauge 5 ["5"]),
            Event.emit (MustNewConstMetric infoSchemaTrxCountDesc
              ValueType.gauge 2 ["30"]),
            Event.emit (MustNewConstMetric infoSchemaTrxCountDesc
              ValueType.gauge 0 ["60"])]
          ++ [Event.closeCursor],
        none))
    ∧ (∀ (s : ScrapeInnodbTrx) (rows : List TrxRow) (iterE : Option Err),
      emittedOf (s.Scrape (QueryOutcome.success ⟨rows.map Except.ok, iterE⟩)).1
        = rows.flatMap trxRowPoints) := by
  refine ⟨rfl, fun s rows iterE => ?_⟩
  rw [innodb_Scrape_map_ok]
  exact emittedOf_wrap _

/-- C7: on the two rows ("i-1", 12.5, 3.0) and ("i-2", 40.0, 0.0),
`ScrapeAuroraHostStatus.Scrape` emits exactly four points — per row one
cpu-usage point and one replica-lag point, two distinct metric families —
each labelled by that row's server id. -/
theorem claim_C7 :
    (ScrapeAuroraHostStatus.Scrape ⟨⟩ (QueryOutcome.success
        ⟨[Except.ok ⟨"i-1", 12.5, 3⟩, Except.ok ⟨"i-2", 40, 0⟩], none⟩)
      = (Event.openCursor ::
          [Event.emit (MustNewConstMetric infoSchemaAuroraCPUUsageDesc
              ValueType.gauge 12.5 ["i-1"]),
            Event.emit (MustNewConstMetric infoSchemaAuroraReplicaLagDesc
              ValueType.gauge 3 ["i-1"]),
            Event.emit (MustNewConstMetric infoSchemaAuroraCPUUsageDesc
              ValueType.gauge 40 ["i-2"]),
            Event.emit (MustNewConstMetric infoSchemaAuroraReplicaLagDesc
              ValueType.gauge 0 ["i-2"])]
          ++ [Event.closeCursor],
        none))
    ∧ infoSchemaAuroraCPUUsageDesc ≠ infoSchemaAuroraReplicaLagDesc :=
  ⟨rfl, by decide⟩

/-- C8: Scrape is stateless and deterministic — the scraper structs carry
no fields, so any two receiver values run identically on the same backing
query result, and a second invocation with identical inputs reproduces the
first's trace and outcome exactly. -/
theorem claim_C8 :
    (∀ (s₁ s₂ : ScrapeInnodbTrx) (db : QueryOutcome TrxRow),
      s₁.Scrape db = s₂.Scrape db)
    ∧ (∀ (s₁ s₂ : ScrapeAuroraHostStatus) (db : QueryOutcome AuroraRow),
      s₁.Scrape db = s₂.Scrape db) :=
  ⟨fun _ _ _ => rfl, fun _ _ _ => rfl⟩

/-- C9: Name, Help and Version are constant functions of the (field-less)
receivers: the innodb scraper's name is "info_schema.innodb_trx", the
aurora scraper's is "info_schema.aurora_stats", the two names are
distinct, and both Version results equal 5.6. -/
theorem claim_C9 :
    (∀ (s : ScrapeInnodbTrx),
      s.Name = "info_schema.innodb_trx"
        ∧ s.Help = "Collect metrics from information_schema.innodb_trx"
        ∧ s.Version = 5.6)
    ∧ (∀ (s : ScrapeAuroraHostStatus),
      s.Name = "info_schema.aurora_stats"
        ∧ s.Help = "Only works on aurora instance"
        ∧ s.Version = 5.6)
    ∧ (∀ (s₁ : ScrapeInnodbTrx) (s₂ : ScrapeAuroraHostStatus),
      s₁.Name ≠ s₂.Name) :=
  ⟨fun _ => ⟨rfl, rfl, rfl⟩, fun _ => ⟨rfl, rfl, rfl⟩,
    fun s₁ s₂ => by cases s₁; cases s₂; decide⟩

/-- C10: every metric point emitted by `ScrapeInnodbTrx.Scrape`, on every
input, has a non-negative value: the three per-row counts are decoded as
`uint64` (Nat in the model), so each emitted gauge value is a Nat cast and
hence ≥ 0. -/
theorem claim_C10 :
    ∀ (s : ScrapeInnodbTrx) (db : QueryOutcome TrxRow) (m : Metric),
      m ∈ emittedOf (s.Scrape db).1 → 0 ≤ m.value := by
  intro s db m hm
  cases db with
  | failure e => simp [ScrapeInnodbTrx.Scrape, emittedOf] at hm
  | success rows =>
      rw [show (s.Scrape (QueryOutcome.success rows)).1
          = (Event.openCursor :: (ScrapeInnodbTrx.scrapeLoop rows.scans).1)
            ++ [Event.closeCursor] from rfl] at hm
      rw [emittedOf_append, emittedOf_openCursor_cons, emittedOf_closeCursor,
        List.append_nil] at hm
      exact innodb_scrapeLoop_emitted_nonneg _ _ hm

/-- C10 witness: the non-negativity fact instantiated at a concrete run
and a concrete emitted point, discharging the membership hypothesis. -/
theorem claim_C10_witness :
    MustNewConstMetric infoSchemaTrxCountDesc ValueType.gauge 5 ["5"]
        ∈ emittedOf (ScrapeInnodbTrx.Scrape ⟨⟩ (QueryOutcome.success
          ⟨[Except.ok ⟨5, 2, 0⟩], none⟩)).1
    ∧ 0 ≤ (MustNewConstMetric infoSchemaTrxCountDesc ValueType.gauge 5 ["5"]).value :=
  ⟨by decide,
    claim_C10 ⟨⟩
      (QueryOutcome.success ⟨[Except.ok ⟨5, 2, 0⟩], none⟩)
      (MustNewConstMetric infoSchemaTrxCountDesc ValueType.gauge 5 ["5"])
      (by decide)⟩
